import Mathlib

/-!
Verification development for `src/adapter/zigate/driver/zigate.ts` of the
`zigbee-herdsman` repository.

The driver turns a duplex byte stream into correlated request/response
exchanges.  This file gives a shallow embedding of the pieces of that file
that the verified properties are about:

* the dynamic property-path `resolve` helper (zigate.ts lines 44-47);
* the rule-based response matcher `waitressValidator` (lines 320-338);
* the waiter-registry bookkeeping performed by `sendCommand` (lines 74-138),
  with the external `Waitress` registry modelled by explicit state passing
  (register / start-timer / remove), and the asynchronous outcomes of the
  transport write and of the awaited status waiter supplied as explicit
  inputs;
* the lifecycle handlers `close` (lines 153-175), `onPortError` (254-256),
  `onPortClose` (258-262), with side effects modelled as explicit traces;
* the inbound dispatch handler `onSerialData` (lines 264-314), with the
  fallible frame/decode steps modelled as `Except` inputs.

JavaScript values reachable by the matcher rules are modelled by `JSValue`;
machine details that the driver never relies on (NaN, prototype chains,
boxed-primitive properties, object reference identity) are out of the model
and noted where they would matter.
-/

namespace ZiGateDriver

/-- JavaScript runtime values as the driver manipulates them: `undefined`,
`null`, booleans, numbers (the driver only uses integral codes/addresses, so
numbers are modelled by `Int`), strings, and plain objects (ordered field
lists). -/
inductive JSValue where
  | undefined
  | null
  | bool (b : Bool)
  | num (n : Int)
  | str (s : String)
  | obj (fields : List (String × JSValue))

/-- JS truthiness, restricted to the modelled values (`NaN` is not
modelled): `undefined`, `null`, `false`, `0` and `""` are falsy. -/
def JSValue.truthy : JSValue → Bool
  | .undefined => false
  | .null => false
  | .bool b => b
  | .num n => n != 0
  | .str s => s != ""
  | .obj _ => true

/-- JS property read `v[k]`: on an object, the field value (or `undefined`
when the key is absent); on any other value, `undefined`.  (Built-in
properties of boxed primitives, e.g. `"x".length`, are not modelled; the
driver's rule paths only address object fields.) -/
def JSValue.get : JSValue → String → JSValue
  | .obj fields, k => (fields.lookup k).getD .undefined
  | _, _ => .undefined

/-- Is this value `undefined`? -/
def JSValue.isUndefined : JSValue → Bool
  | .undefined => true
  | _ => false

/-- JS strict equality `===` on the modelled values.  Two object values are
never strictly equal in the model: in JS, `===` on objects is reference
identity, and the driver's rules only ever compare primitive codes,
statuses and addresses.  Note `undefined === undefined` is `true`. -/
def jsStrictEq : JSValue → JSValue → Bool
  | .undefined, .undefined => true
  | .null, .null => true
  | .bool a, .bool b => a == b
  | .num a, .num b => a == b
  | .str a, .str b => a == b
  | _, _ => false

/-- One reduce step of `resolve` (zigate.ts line 46):
`(prev, curr) => prev && prev[curr]` — JS `&&` returns `prev` itself when
`prev` is falsy, and the property read otherwise. -/
def resolveStep (prev : JSValue) (curr : String) : JSValue :=
  if prev.truthy then prev.get curr else prev

/-- JS `path.split('.')` on the character list of the path, accumulating
the current segment in reverse: `"a.b"` gives `["a", "b"]` and `""` gives
`[""]`, exactly as in JS.  (Structurally recursive so that concrete paths
evaluate definitionally.) -/
def splitDotAux : List Char → List Char → List String
  | [], acc => [String.mk acc.reverse]
  | c :: cs, acc =>
    if c = '.' then String.mk acc.reverse :: splitDotAux cs []
    else splitDotAux cs (c :: acc)

/-- JS `path.split('.')`. -/
def splitDot (path : String) : List String :=
  splitDotAux path.data []

/-- `resolve(path, obj)` from zigate.ts lines 44-47: splits the path on `.`
and folds the `prev && prev[curr]` step over the segments, starting from
`obj`.  (The source also accepts an array path; every call site in the file
passes a string, so the string form is embedded.) -/
def resolve (path : String) (o : JSValue) : JSValue :=
  (splitDot path).foldl resolveStep o

/-- A response-matcher rule from `commandType.ts` as consumed by
`waitressValidator`: a received-property path, a comparator (fallible, to
model a comparator that throws), and exactly one source for the expected
value: a literal `value`, a property path into the original request
(`expectedProperty`), or a property path into the caller-supplied extra
parameters (`expectedExtraParameter`).  Optional TS fields are modelled by
`Option`. -/
structure ZiGateResponseMatcherRule where
  receivedProperty : String
  matcher : JSValue → JSValue → Except String Bool
  value : Option JSValue
  expectedProperty : Option String
  expectedExtraParameter : Option String

/-- A matcher rule-set (`ZiGateResponseMatcher` in `commandType.ts`). -/
def ZiGateResponseMatcher := List ZiGateResponseMatcherRule

/-- Modelled from the spec: the `equal` comparator exported by
`commandType.ts` (that file is not under `src/`).  Per the spec, the
comparator is plain equality ("equality is the common case"), i.e. JS
strict equality `===`; it never throws. -/
def equal (expected received : JSValue) : Except String Bool :=
  .ok (jsStrictEq expected received)

/-- The `WaitressMatcher` record of zigate.ts lines 33-37: the original
request object, the rule-set, and optional extra parameters. -/
structure WaitressMatcher where
  ziGateObject : JSValue
  rules : List ZiGateResponseMatcherRule
  extraParameters : Option JSValue

/-- JS loose test `x == undefined` on an optional field: true for an absent
field and for a present field holding `undefined` or `null`. -/
def looseEqUndefined : Option JSValue → Bool
  | none => true
  | some .undefined => true
  | some .null => true
  | some _ => false

/-- An optional TS value as a JS value (`undefined` when absent). -/
def optToJS : Option JSValue → JSValue
  | none => .undefined
  | some v => v

/-- The `expectedValue` computation of `waitressValidator` (zigate.ts lines
323-330): if `rule.value == undefined` and `rule.expectedProperty` is set,
resolve the path into the request object; else if `rule.value == undefined`
and `rule.expectedExtraParameter` is set, resolve it into the extra
parameters (which may themselves be `undefined`); else use `rule.value!`
(which is `undefined` when the field is absent). -/
def ruleExpectedValue (m : WaitressMatcher) (rule : ZiGateResponseMatcherRule) : JSValue :=
  if looseEqUndefined rule.value && rule.expectedProperty.isSome then
    resolve (rule.expectedProperty.getD "") m.ziGateObject
  else if looseEqUndefined rule.value && rule.expectedExtraParameter.isSome then
    resolve (rule.expectedExtraParameter.getD "") (optToJS m.extraParameters)
  else
    (rule.value).getD .undefined

/-- The `receivedValue` computation of `waitressValidator` (zigate.ts line
331): resolve the rule's received-property path into the decoded object. -/
def ruleReceivedValue (ziGateObject : JSValue) (rule : ZiGateResponseMatcherRule) : JSValue :=
  resolve rule.receivedProperty ziGateObject

/-- The per-rule closure of `waitressValidator` (zigate.ts lines 321-336):
compute expected and received values and apply the comparator, with the
surrounding `try/catch` turning any throw into `false`.  (In the embedded
value model the path resolutions themselves are total — JS `resolve` cannot
throw on these value forms — so the comparator is the only fallible part,
modelled by `Except`.) -/
def validatorRule (ziGateObject : JSValue) (m : WaitressMatcher)
    (rule : ZiGateResponseMatcherRule) : Bool :=
  match rule.matcher (ruleExpectedValue m rule) (ruleReceivedValue ziGateObject rule) with
  | .ok b => b
  | .error _ => false

/-- `waitressValidator` from zigate.ts lines 320-338: the matcher passes
iff every rule of the rule-set passes (`matcher.rules.every(validator)`). -/
def waitressValidator (ziGateObject : JSValue) (m : WaitressMatcher) : Bool :=
  m.rules.all (validatorRule ziGateObject m)

/-! ## The waiter registry and `sendCommand`

The external `Waitress` primitive (`src/utils/waitress.ts`, not under
`src/` here) is modelled by explicit state: per the spec, `waitFor`
registers a pending expectation without starting its timer and returns its
fresh ID, `start` starts the expectation's timeout timer, `remove` deletes
it, and a settlement (match or deadline expiry) removes the settled
expectation from the registry. -/

/-- A pending expectation held by the waiter registry: its ID, whether its
timeout timer has been started, its configured deadline in milliseconds,
and whether it is the status waiter of a `sendCommand` run (rule-set
payload is irrelevant to the verified bookkeeping and omitted from the
entry). -/
structure Waiter where
  id : Nat
  timerStarted : Bool
  timeoutMs : Nat
  isStatusWaiter : Bool
deriving Repr, DecidableEq

/-- The waiter registry state: the next fresh ID and the pending
expectations. -/
structure Waitress where
  nextId : Nat
  waiters : List Waiter
deriving Repr, DecidableEq

/-- An empty registry. -/
def emptyWaitress : Waitress := { nextId := 0, waiters := [] }

/-- Registry `waitFor`: register a pending expectation under a fresh ID,
timer not yet started; returns the ID and the new state. -/
def Waitress.waitFor (w : Waitress) (timeoutMs : Nat) (isStatus : Bool) : Nat × Waitress :=
  (w.nextId,
   { nextId := w.nextId + 1,
     waiters := w.waiters ++ [⟨w.nextId, false, timeoutMs, isStatus⟩] })

/-- Registry `start`: start the timeout timer of the expectation with the
given ID. -/
def Waitress.start (w : Waitress) (id : Nat) : Waitress :=
  { w with
    waiters := w.waiters.map fun x =>
      if x.id = id then { x with timerStarted := true } else x }

/-- Registry `remove`: delete the expectation with the given ID. -/
def Waitress.remove (w : Waitress) (id : Nat) : Waitress :=
  { w with waiters := w.waiters.filter fun x => x.id != id }

/-- Sequential removal, modelling `waitersId.map((id) => this.waitress.remove(id))`
(zigate.ts line 126). -/
def removeAll (w : Waitress) (ids : List Nat) : Waitress :=
  ids.foldl Waitress.remove w

/-- The command metadata attached to a constructed request by the external
catalog (`ziGateObject.command`): the declared response rule-sets
(`response`, an optional array) and the status-confirmation flag
(`waitStatus`, an optional boolean). -/
structure ZiGateCommandType where
  response : Option (List ZiGateResponseMatcher)
  waitStatus : Option Bool

/-- The test `ziGateObject.command.waitStatus !== false` of zigate.ts lines
110 and 123: status confirmation is required unless `waitStatus` is the
literal `false`. -/
def waitStatusRequired (cmd : ZiGateCommandType) : Bool :=
  cmd.waitStatus != some false

/-- The effective waiter deadline `timeout || timeouts.default` (zigate.ts
lines 103 and 116): JS `||` falls back to the 10000 ms default when the
caller passed no timeout or the falsy `0`. -/
def effectiveTimeout (timeout : Option Nat) : Nat :=
  match timeout with
  | none => 10000
  | some t => if t = 0 then 10000 else t

/-- One iteration of `ziGateObject.command.response.forEach` (zigate.ts
lines 102-106): register a response waiter (`waitress.waitFor`), record its
ID, and start it at once (`waiter.start().promise`). -/
def regStep (timeoutMs : Nat) (acc : Waitress × List Nat)
    (_rules : ZiGateResponseMatcher) : Waitress × List Nat :=
  let idw := acc.1.waitFor timeoutMs false
  ((idw.2.start idw.1), acc.2 ++ [idw.1])

/-- Zigate.ts lines 101-107: when `disableResponse` is false and the
command metadata declares a response array, register (and immediately
start) one response waiter per declared rule-set; otherwise register
nothing.  Returns the new registry state and the collected waiter IDs. -/
def registerResponseWaiters (w : Waitress) (cmd : ZiGateCommandType)
    (disableResponse : Bool) (timeoutMs : Nat) : Waitress × List Nat :=
  if !disableResponse && cmd.response.isSome then
    (cmd.response.getD []).foldl (regStep timeoutMs) (w, [])
  else (w, [])

/-- Zigate.ts lines 110-118: when status confirmation is required, register
the status waiter (whose rule-set matches the Status message code and the
request's packet type) and start it immediately
(`this.waitress.waitFor(...).start()`). -/
def registerStatusWaiter (w : Waitress) (timeoutMs : Nat) : Waitress × Nat :=
  let idw := w.waitFor timeoutMs true
  (idw.2.start idw.1, idw.1)

/-- The registration phase of `sendCommand` (everything before the
transport write, zigate.ts lines 101-118): response waiters first, then the
status waiter when required.  Returns the registry after registration, the
response waiter IDs (`waitersId`), and the status waiter ID when one was
registered. -/
def registrationPhase (cmd : ZiGateCommandType) (disableResponse : Bool)
    (timeout : Option Nat) (w0 : Waitress) : Waitress × List Nat × Option Nat :=
  let t := effectiveTimeout timeout
  let reg := registerResponseWaiters w0 cmd disableResponse t
  if waitStatusRequired cmd then
    let st := registerStatusWaiter reg.1 t
    (st.1, reg.2, some st.2)
  else (reg.1, reg.2, none)

/-- Outcome of the transport write `this.portWrite!.write(sendBuffer)`
(zigate.ts line 121), supplied as an input of the model: it either succeeds
or throws. -/
inductive WriteOutcome where
  | ok
  | throws (msg : String)
deriving Repr, DecidableEq

/-- How the awaited status waiter settles (zigate.ts line 124): it resolves
with the matched status object, or rejects with a timeout failure when its
deadline expires first. -/
inductive StatusSettlement where
  | resolved (statusResponse : JSValue)
  | timedOut (msg : String)

/-- Modelled from the spec: `STATUS.E_SL_MSG_STATUS_SUCCESS`, the
protocol's success status code from `constants.ts` (not under `src/`).
Only its (in)equality with a received `payload.status` matters to the
verified properties. -/
def STATUS_E_SL_MSG_STATUS_SUCCESS : JSValue := .num 0

/-- How the promise returned by `sendCommand` settles.
`race ids` stands for `Promise.race(waiters)` over the (already started)
promises of the response waiters with the given IDs; per JS semantics,
`Promise.race` over an empty iterable returns a forever-pending promise.
`rejectedWith v` is a rejection whose reason is the JS value `v` itself
(zigate.ts line 127 rejects with the raw status object; since that
`Promise.reject` is returned without `await`, the surrounding `try/catch`
does not intercept it and no wrapping occurs).  `rejectedError` is the
wrapped `new Error('sendCommand error: ' + e)` rejection produced by the
`catch` block (lines 133-136). -/
inductive SendResult where
  | resolvedWith (v : JSValue)
  | rejectedWith (v : JSValue)
  | rejectedError (msg : String)
  | race (waiterIds : List Nat)

/-- Does a `SendResult` ever settle?  All outcomes settle except a race
over an empty waiter list (`Promise.race([])` stays pending forever; a race
over registered waiters settles because every waiter carries a deadline). -/
def SendResult.settles : SendResult → Bool
  | .race ids => !ids.isEmpty
  | _ => true

/-- The result of one `sendCommand` run: how its promise settles, the final
waiter-registry state at that point, and the response waiter IDs it
registered (`waitersId`). -/
structure SendOutcome where
  result : SendResult
  waitress : Waitress
  waitersId : List Nat

/-- `sendCommand` (zigate.ts lines 74-138), as the unit of work executed
inside the external command `Queue` (concurrency 1); runs in which request
construction succeeds are modelled.  Control flow after the registration
phase, following the source exactly:

* the write throws → the `catch` block rejects with the wrapped error; no
  waiter is removed (lines 133-136 perform no registry cleanup);
* no status waiter → `Promise.race` over the response waiters (line 132);
* status waiter times out → the `await` at line 124 throws, the `catch`
  rejects with the wrapped error; the registry removed the status waiter on
  its own deadline expiry, and no response waiter is removed;
* status resolves with a non-success `payload.status` → all response
  waiters are removed and the command rejects with the status object
  itself (lines 125-127);
* status resolves with success and no response waiter was registered →
  resolve with the status object (lines 128-130);
* otherwise → `Promise.race` over the response waiters (line 132). -/
def sendCommand (cmd : ZiGateCommandType) (disableResponse : Bool)
    (timeout : Option Nat) (write : WriteOutcome) (status : StatusSettlement)
    (w0 : Waitress) : SendOutcome :=
  let R := registrationPhase cmd disableResponse timeout w0
  match write with
  | .throws m => ⟨.rejectedError ("sendCommand error: " ++ m), R.1, R.2.1⟩
  | .ok =>
    match R.2.2 with
    | none => ⟨.race R.2.1, R.1, R.2.1⟩
    | some sid =>
      match status with
      | .timedOut m =>
        ⟨.rejectedError ("sendCommand error: " ++ m), R.1.remove sid, R.2.1⟩
      | .resolved s =>
        let w3 := R.1.remove sid
        if !(jsStrictEq ((s.get "payload").get "status") STATUS_E_SL_MSG_STATUS_SUCCESS) then
          ⟨.rejectedWith s, removeAll w3 R.2.1, R.2.1⟩
        else if R.2.1.isEmpty then
          ⟨.resolvedWith s, w3, R.2.1⟩
        else
          ⟨.race R.2.1, w3, R.2.1⟩

/-! ## Lifecycle handlers: `close`, `onPortError`, `onPortClose` -/

/-- Events the driver emits to its listeners (zigate.ts `this.emit(...)`
call sites): the `close` lifecycle event, application-layer `received`
indications, `DeviceAnnounce` and `LeaveIndication`. -/
inductive DriverEvent where
  | close
  | received
  | deviceAnnounce (networkAddress : Nat) (ieeeAddr : String)
  | leaveIndication
deriving Repr, DecidableEq, BEq

/-- The driver state touched by the lifecycle handlers: the `initialized`
flag. -/
structure DriverLifecycleState where
  initialized : Bool
deriving Repr, DecidableEq

/-- The result of running a lifecycle event handler: the new driver state,
the events emitted to listeners, and the log lines produced. -/
structure HandlerResult where
  state : DriverLifecycleState
  emitted : List DriverEvent
  logs : List String
deriving Repr, DecidableEq

/-- `onPortError` (zigate.ts lines 254-256): the transport error handler
only logs the error — it changes no driver state and emits nothing. -/
def onPortError (error : String) (s : DriverLifecycleState) : HandlerResult :=
  { state := s, emitted := [], logs := ["Port error: " ++ error] }

/-- `onPortClose` (zigate.ts lines 258-262): the transport close handler
logs, clears `initialized`, and emits the `close` event — from any current
state. -/
def onPortClose (_s : DriverLifecycleState) : HandlerResult :=
  { state := { initialized := false }, emitted := [.close], logs := ["Port closed"] }

/-- The conditions of one `close()` run (zigate.ts lines 153-175): the
current `initialized` flag, whether a serial port (vs. only a socket) is
held, whether a socket is held, and whether the serial
`asyncFlushAndClose` succeeds or throws. -/
structure CloseInput where
  initialized : Bool
  hasSerialPort : Bool
  hasSocketPort : Bool
  flush : WriteOutcome
deriving Repr, DecidableEq

/-- The side effects a `close()` run performs, in execution order. -/
inductive CloseEffect where
  | clearQueue
  | clearPortWrite
  | setUninitialized
  | serialFlushClose
  | destroySocket
  | emitClose
  | throwError (msg : String)
deriving Repr, DecidableEq, BEq

/-- `close()` (zigate.ts lines 153-175) as its ordered effect trace:
always clear the command queue; when initialized, drop `portWrite`, clear
`initialized`, then flush-and-close the serial port (on a flush throw, emit
`close` and then re-throw — line 174 is not reached) or destroy the socket;
finally emit `close` (line 174). -/
def close (inp : CloseInput) : List CloseEffect :=
  if inp.initialized then
    if inp.hasSerialPort then
      match inp.flush with
      | .ok =>
        [.clearQueue, .clearPortWrite, .setUninitialized, .serialFlushClose, .emitClose]
      | .throws m =>
        [.clearQueue, .clearPortWrite, .setUninitialized, .serialFlushClose,
         .emitClose, .throwError m]
    else
      [.clearQueue, .clearPortWrite, .setUninitialized]
        ++ (if inp.hasSocketPort then [.destroySocket] else [])
        ++ [.emitClose]
  else
    [.clearQueue, .emitClose]

/-! ## Inbound dispatch: `onSerialData` -/

/-- Modelled from the spec: the inbound message identifiers from
`constants.ts` (not under `src/`) that the dispatch switch of
`onSerialData` distinguishes; every other code is `other`. -/
inductive ZiGateMessageCode where
  | dataIndication
  | leaveIndication
  | deviceAnnounce
  | status
  | other (code : Nat)
deriving Repr, DecidableEq

/-- An inbound frame as `onSerialData` consumes it: reading its message
code (`frame.readMsgCode()`, which can throw on a malformed frame) is the
only access the handler makes before decoding. -/
structure ZiGateFrameModel where
  msgCodeRead : Except String ZiGateMessageCode

/-- A decoded inbound object (`ZiGateObject.fromZiGateFrame` result) as the
dispatch switch consumes it: the addressing fields it branches on, the
outcome of reading the announce sub-payload (`readUInt16LE`/`readIeeeAddr`
can throw on a short payload), and the fields of a dedicated
`DeviceAnnounce` payload. -/
structure DecodedZiGateObject where
  profileID : Nat
  clusterID : Nat
  announceRead : Except String (Nat × String)
  shortAddress : Nat
  ieee : String

/-- The externally visible actions `onSerialData` performs, in order. -/
inductive SerialEffect where
  | logDebug (msg : String)
  | logError (msg : String)
  | waitressResolve
  | emit (ev : DriverEvent)
deriving Repr, DecidableEq, BEq

/-- The dispatch switch of `onSerialData` (zigate.ts lines 281-307),
keyed on the frame's message code: a `DataIndication` with profile 0x0000
and cluster 0x0013 reads the announce sub-payload (fallibly) and emits
`DeviceAnnounce`; profile 0x0104 emits `received`; any other profile logs;
`LeaveIndication` and `DeviceAnnounce` emit their events; every other code
does nothing. -/
def dispatchDecoded (code : ZiGateMessageCode) (z : DecodedZiGateObject) :
    Except String (List SerialEffect) :=
  match code with
  | .dataIndication =>
    if z.profileID = 0x0000 then
      if z.clusterID = 0x0013 then
        match z.announceRead with
        | .error e => .error e
        | .ok na => .ok [.emit (.deviceAnnounce na.1 na.2)]
      else .ok []
    else if z.profileID = 0x0104 then
      .ok [.emit .received]
    else
      .ok [.logDebug ("not implemented profile: " ++ toString z.profileID)]
  | .leaveIndication => .ok [.emit .leaveIndication]
  | .deviceAnnounce => .ok [.emit (.deviceAnnounce z.shortAddress z.ieee)]
  | _ => .ok []

/-- The fallible steps of handling one raw frame chunk, supplied as inputs:
constructing the frame (`new ZiGateFrame(buffer)` can throw) and decoding
it (`ZiGateObject.fromZiGateFrame` can throw). -/
structure SerialInput where
  frameResult : Except String ZiGateFrameModel
  decodeResult : Except String DecodedZiGateObject

/-- `onSerialData` (zigate.ts lines 264-314).  The returned `Except` is the
handler's own termination: `.ok effs` is a normal return with the listed
effects, `.error` would be an escaped throw.  The outer `try/catch` (lines
265, 311-313) turns frame-construction and code-read throws into a single
error log; the inner `try/catch` (lines 276, 308-310) turns decode throws
and dispatch throws into an error log, keeping the effects already
performed (the payload debug log and the registry settlement offer at
lines 278-279 precede the switch). -/
def onSerialData (inp : SerialInput) : Except String (List SerialEffect) :=
  match inp.frameResult with
  | .error e => .ok [.logError ("Error while parsing Frame " ++ e)]
  | .ok frame =>
    match frame.msgCodeRead with
    | .error e => .ok [.logError ("Error while parsing Frame " ++ e)]
    | .ok code =>
      match inp.decodeResult with
      | .error e =>
        .ok [.logDebug "parsed frame", .logError ("Parsing error: " ++ e)]
      | .ok z =>
        match dispatchDecoded code z with
        | .error e =>
          .ok ([.logDebug "parsed frame", .logDebug "payload", .waitressResolve,
                .logError ("Parsing error: " ++ e)])
        | .ok ds =>
          .ok ([.logDebug "parsed frame", .logDebug "payload", .waitressResolve] ++ ds)

/-! ## Concrete sample data used by counterexamples and witnesses -/

/-- A sample response rule: the received `code` must equal the literal
`0x8000`. -/
def sampleRule : ZiGateResponseMatcherRule :=
  ⟨"code", equal, some (.num 0x8000), none, none⟩

/-- A sample command: one declared response rule-set, `waitStatus` left
undefined (so status confirmation is required). -/
def sampleCmd : ZiGateCommandType := ⟨some [[sampleRule]], none⟩

/-- A status object whose `payload.status` is `1` (not the success code). -/
def statusFail : JSValue := .obj [("payload", .obj [("status", .num 1)])]

/-- A status object whose `payload.status` is the success code `0`. -/
def statusOk : JSValue := .obj [("payload", .obj [("status", .num 0)])]

/-! ## Registry lemmas -/

theorem mem_of_mem_remove {x : Waiter} {w : Waitress} {id : Nat}
    (h : x ∈ (w.remove id).waiters) : x ∈ w.waiters := by
  simpa [Waitress.remove] using (List.mem_filter.mp h).1

theorem id_ne_of_mem_remove {x : Waiter} {w : Waitress} {id : Nat}
    (h : x ∈ (w.remove id).waiters) : x.id ≠ id := by
  have := (List.mem_filter.mp h).2
  simpa using this

theorem mem_of_mem_removeAll {x : Waiter} {ids : List Nat} {w : Waitress}
    (h : x ∈ (removeAll w ids).waiters) : x ∈ w.waiters := by
  induction ids generalizing w with
  | nil => simpa [removeAll] using h
  | cons a as ih =>
    have h' : x ∈ (removeAll (w.remove a) as).waiters := by
      simpa [removeAll] using h
    exact mem_of_mem_remove (ih h')

theorem not_mem_of_mem_removeAll {x : Waiter} {ids : List Nat} {w : Waitress}
    (h : x ∈ (removeAll w ids).waiters) : x.id ∉ ids := by
  induction ids generalizing w with
  | nil => simp
  | cons a as ih =>
    have h' : x ∈ (removeAll (w.remove a) as).waiters := by
      simpa [removeAll] using h
    have hne : x.id ≠ a := id_ne_of_mem_remove (mem_of_mem_removeAll h')
    have hnotas : x.id ∉ as := ih h'
    simp [List.mem_cons]
    exact ⟨hne, hnotas⟩

/-- After `removeAll`, no waiter with a removed ID remains. -/
theorem removeAll_cleared (w : Waitress) (ids : List Nat) :
    ((removeAll w ids).waiters.all fun x => decide (x.id ∉ ids)) = true := by
  rw [List.all_eq_true]
  intro x hx
  simpa using not_mem_of_mem_removeAll hx

/-- `waitFor` immediately followed by `start` of the fresh ID keeps every
registry entry's timer started, provided all existing entries were
started. -/
theorem waitFor_start_all_started (w : Waitress) (t : Nat) (b : Bool)
    (h : (w.waiters.all fun x => x.timerStarted) = true) :
    ((((w.waitFor t b).2).start (w.waitFor t b).1).waiters.all
        fun x => x.timerStarted) = true := by
  rw [List.all_eq_true] at h ⊢
  intro x hx
  simp only [Waitress.waitFor, Waitress.start, List.map_append, List.mem_append] at hx
  rcases hx with hx | hx
  · rcases List.mem_map.mp hx with ⟨y, hy, rfl⟩
    by_cases hid : y.id = w.nextId <;> simp [hid, h y hy]
  · simp at hx
    simp [hx]

/-- The `forEach` registration fold keeps every registry entry's timer
started. -/
theorem foldl_regStep_started (t : Nat) (l : List ZiGateResponseMatcher)
    (acc : Waitress × List Nat)
    (h : (acc.1.waiters.all fun x => x.timerStarted) = true) :
    (((l.foldl (regStep t) acc).1.waiters.all fun x => x.timerStarted)) = true := by
  induction l generalizing acc with
  | nil => simpa using h
  | cons a as ih =>
    simp only [List.foldl_cons]
    exact ih _ (waitFor_start_all_started acc.1 t false h)

/-- `registerResponseWaiters` keeps every registry entry's timer started. -/
theorem registerResponseWaiters_started (w : Waitress) (cmd : ZiGateCommandType)
    (dr : Bool) (t : Nat)
    (h : (w.waiters.all fun x => x.timerStarted) = true) :
    (((registerResponseWaiters w cmd dr t).1.waiters.all
        fun x => x.timerStarted)) = true := by
  unfold registerResponseWaiters
  split
  · exact foldl_regStep_started t _ (w, []) h
  · exact h

/-- The whole registration phase of `sendCommand`, starting from a registry
whose entries are all started, yields a registry whose entries are all
started: in particular every waiter it registers has its timer started
before the transport write. -/
theorem registrationPhase_started (cmd : ZiGateCommandType) (dr : Bool)
    (tmo : Option Nat) (w0 : Waitress)
    (h : (w0.waiters.all fun x => x.timerStarted) = true) :
    (((registrationPhase cmd dr tmo w0).1.waiters.all
        fun x => x.timerStarted)) = true := by
  unfold registrationPhase
  have hr := registerResponseWaiters_started w0 cmd dr (effectiveTimeout tmo) h
  split
  · exact waitFor_start_all_started _ _ true hr
  · exact hr

/-- When status confirmation is required, the registration phase registers
a status waiter. -/
theorem registrationPhase_status_some (cmd : ZiGateCommandType) (dr : Bool)
    (tmo : Option Nat) (w0 : Waitress) (hws : waitStatusRequired cmd = true) :
    (registrationPhase cmd dr tmo w0).2.2 =
      some (registerStatusWaiter
        (registerResponseWaiters w0 cmd dr (effectiveTimeout tmo)).1
        (effectiveTimeout tmo)).2 := by
  simp [registrationPhase, hws]

/-- `start` changes no waiter's ID, so an ID present in the registry stays
present. -/
theorem any_id_start (w : Waitress) (n id : Nat)
    (h : (w.waiters.any fun x => x.id == id) = true) :
    ((w.start n).waiters.any fun x => x.id == id) = true := by
  rw [List.any_eq_true] at h ⊢
  obtain ⟨x, hx, hxid⟩ := h
  refine ⟨if x.id = n then { x with timerStarted := true } else x,
    List.mem_map_of_mem _ hx, ?_⟩
  by_cases hn : x.id = n <;> simp [hn] at hxid ⊢ <;> simp [hxid]

/-- `waitFor` only appends, so an ID present in the registry stays
present. -/
theorem any_id_waitFor (w : Waitress) (t : Nat) (b : Bool) (id : Nat)
    (h : (w.waiters.any fun x => x.id == id) = true) :
    (((w.waitFor t b).2).waiters.any fun x => x.id == id) = true := by
  rw [List.any_eq_true] at h ⊢
  obtain ⟨x, hx, hxid⟩ := h
  exact ⟨x, List.mem_append_left _ hx, hxid⟩

/-- The entry `waitFor` appends carries the fresh ID `w.nextId`. -/
theorem any_id_waitFor_new (w : Waitress) (t : Nat) (b : Bool) :
    (((w.waitFor t b).2).waiters.any fun x => x.id == w.nextId) = true := by
  rw [List.any_eq_true]
  exact ⟨⟨w.nextId, false, t, b⟩, List.mem_append_right _ (List.mem_singleton.mpr rfl),
    by simp⟩

/-- `remove sid` keeps every entry whose ID differs from `sid`. -/
theorem any_id_remove (w : Waitress) (sid id : Nat) (hne : id ≠ sid)
    (h : (w.waiters.any fun x => x.id == id) = true) :
    ((w.remove sid).waiters.any fun x => x.id == id) = true := by
  rw [List.any_eq_true] at h ⊢
  obtain ⟨x, hx, hxid⟩ := h
  have hxid' : x.id = id := by simpa using hxid
  refine ⟨x, List.mem_filter.mpr ⟨hx, ?_⟩, hxid⟩
  simp [hxid', hne]

/-- Fold invariant of the response-waiter registration: every collected ID
is below the registry's fresh-ID counter and has an entry in the
registry. -/
theorem foldl_regStep_ids (t : Nat) (l : List ZiGateResponseMatcher)
    (acc : Waitress × List Nat)
    (h : ∀ id ∈ acc.2,
      id < acc.1.nextId ∧ (acc.1.waiters.any fun x => x.id == id) = true) :
    ∀ id ∈ (l.foldl (regStep t) acc).2,
      id < (l.foldl (regStep t) acc).1.nextId ∧
      ((l.foldl (regStep t) acc).1.waiters.any fun x => x.id == id) = true := by
  induction l generalizing acc with
  | nil => simpa using h
  | cons a as ih =>
    simp only [List.foldl_cons]
    apply ih
    intro id hid
    have hid' : id ∈ acc.2 ∨ id = acc.1.nextId := by
      simpa [regStep, Waitress.waitFor, Waitress.start, List.mem_append] using hid
    rcases hid' with hmem | hnew
    · obtain ⟨hlt, hany⟩ := h id hmem
      exact ⟨Nat.lt_succ_of_lt hlt, any_id_start _ _ _ (any_id_waitFor _ _ _ _ hany)⟩
    · subst hnew
      exact ⟨Nat.lt_succ_self _, any_id_start _ _ _ (any_id_waitFor_new acc.1 t false)⟩

/-- Every response-waiter ID collected by `registerResponseWaiters` is
below the resulting fresh-ID counter and has an entry in the resulting
registry. -/
theorem registerResponseWaiters_ids (w0 : Waitress) (cmd : ZiGateCommandType)
    (dr : Bool) (t : Nat) :
    ∀ id ∈ (registerResponseWaiters w0 cmd dr t).2,
      id < (registerResponseWaiters w0 cmd dr t).1.nextId ∧
      ((registerResponseWaiters w0 cmd dr t).1.waiters.any fun x => x.id == id)
        = true := by
  unfold registerResponseWaiters
  split
  · exact foldl_regStep_ids t _ (w0, []) (by simp)
  · simp

/-- After the registration phase, removing the status waiter (whose ID is
fresher than every response-waiter ID) leaves every response waiter
registered. -/
theorem registrationPhase_response_survive (cmd : ZiGateCommandType) (dr : Bool)
    (tmo : Option Nat) (w0 : Waitress) (sid : Nat)
    (hsid : (registrationPhase cmd dr tmo w0).2.2 = some sid) :
    ((registrationPhase cmd dr tmo w0).2.1.all fun id =>
      (((registrationPhase cmd dr tmo w0).1).remove sid).waiters.any
        fun x => x.id == id) = true := by
  by_cases hws : waitStatusRequired cmd
  · simp only [registrationPhase, hws, if_pos] at hsid ⊢
    have hsid' : (registerResponseWaiters w0 cmd dr (effectiveTimeout tmo)).1.nextId
        = sid := by
      simpa [registerStatusWaiter, Waitress.waitFor] using hsid
    rw [List.all_eq_true]
    intro id hid
    obtain ⟨hlt, hany⟩ := registerResponseWaiters_ids w0 cmd dr (effectiveTimeout tmo) id hid
    refine any_id_remove _ _ _ ?_ (any_id_start _ _ _ (any_id_waitFor _ _ _ _ hany))
    rw [← hsid']
    exact Nat.ne_of_lt hlt
  · simp [registrationPhase, hws] at hsid

/-! ## Claim theorems -/

/-- C1: for every `sendCommand` run on a command requiring status
confirmation, when the awaited status object's `payload.status` is not the
protocol success code, `sendCommand` removes every response waiter it
registered from the waiter registry and rejects with the status object
itself as the error payload. -/
theorem zigate_c1 (cmd : ZiGateCommandType) (dr : Bool) (tmo : Option Nat)
    (w0 : Waitress) (s : JSValue)
    (hws : waitStatusRequired cmd = true)
    (hst : jsStrictEq ((s.get "payload").get "status") STATUS_E_SL_MSG_STATUS_SUCCESS
      = false) :
    (sendCommand cmd dr tmo .ok (.resolved s) w0).result = .rejectedWith s ∧
    ((sendCommand cmd dr tmo .ok (.resolved s) w0).waitress.waiters.all
      fun x => decide (x.id ∉ (sendCommand cmd dr tmo .ok (.resolved s) w0).waitersId))
      = true := by
  obtain ⟨sid, hsid⟩ : ∃ sid, (registrationPhase cmd dr tmo w0).2.2 = some sid :=
    ⟨_, registrationPhase_status_some cmd dr tmo w0 hws⟩
  have hrun : sendCommand cmd dr tmo .ok (.resolved s) w0 =
      ⟨.rejectedWith s,
       removeAll (((registrationPhase cmd dr tmo w0).1).remove sid)
         (registrationPhase cmd dr tmo w0).2.1,
       (registrationPhase cmd dr tmo w0).2.1⟩ := by
    simp [sendCommand, hsid, hst]
  rw [hrun]
  exact ⟨rfl, removeAll_cleared _ _⟩

/-- Witness for C1 at a concrete run: `sampleCmd` requires status
confirmation, the received status payload `1` is not the success code, and
the run rejects with the status object with all response waiters
removed. -/
theorem zigate_c1_witness :
    waitStatusRequired sampleCmd = true ∧
    jsStrictEq ((statusFail.get "payload").get "status") STATUS_E_SL_MSG_STATUS_SUCCESS
      = false ∧
    ((sendCommand sampleCmd false none .ok (.resolved statusFail) emptyWaitress).result
        = .rejectedWith statusFail ∧
      ((sendCommand sampleCmd false none .ok (.resolved statusFail) emptyWaitress).waitress.waiters.all
        fun x => decide (x.id ∉
          (sendCommand sampleCmd false none .ok (.resolved statusFail) emptyWaitress).waitersId))
        = true) :=
  ⟨rfl, rfl, zigate_c1 sampleCmd false none emptyWaitress statusFail rfl rfl⟩

/-- C2 counterexample, covering both failure modes of the claim on runs of
`sendCommand sampleCmd` (one response rule-set, status required).  First
run: the transport write throws — the command fails with the wrapped
error, but no registered expectation is removed: the response waiter
(ID 0) and the status waiter (ID 1) both remain in the registry.  Second
run: the write succeeds and the status waiter times out — the command
fails with the wrapped error, the status waiter (ID 1) is gone only
because its own deadline settlement removed it, and the response waiter
(ID 0) is still registered.  Both runs contradict the claim that all
previously registered but not-yet-settled expectations are removed. -/
theorem zigate_c2_counterexample :
    ((sendCommand sampleCmd false none (.throws "write failed") (.timedOut "t")
        emptyWaitress).result
          = .rejectedError ("sendCommand error: " ++ "write failed") ∧
      (sendCommand sampleCmd false none (.throws "write failed") (.timedOut "t")
        emptyWaitress).waitersId = [0] ∧
      ((sendCommand sampleCmd false none (.throws "write failed") (.timedOut "t")
        emptyWaitress).waitress.waiters.map fun x => x.id) = [0, 1]) ∧
    ((sendCommand sampleCmd false none .ok (.timedOut "status timeout")
        emptyWaitress).result
          = .rejectedError ("sendCommand error: " ++ "status timeout") ∧
      (sendCommand sampleCmd false none .ok (.timedOut "status timeout")
        emptyWaitress).waitersId = [0] ∧
      ((sendCommand sampleCmd false none .ok (.timedOut "status timeout")
        emptyWaitress).waitress.waiters.map fun x => x.id) = [0]) :=
  ⟨⟨rfl, rfl, rfl⟩, ⟨rfl, rfl, rfl⟩⟩

/-- C2 amended: on a write failure the command fails with the wrapped
error and the registry is left exactly as the registration phase built it
(no expectation is removed); on a status-waiter timeout the command fails
with the wrapped error and the only expectation that leaves the registry
is the status waiter itself, removed by its own deadline settlement — in
particular every response waiter registered by the call is still present
in the registry when the command settles. -/
theorem zigate_c2_amended :
    (∀ (cmd : ZiGateCommandType) (dr : Bool) (tmo : Option Nat) (w0 : Waitress)
        (m : String) (st : StatusSettlement),
      sendCommand cmd dr tmo (.throws m) st w0 =
        ⟨.rejectedError ("sendCommand error: " ++ m),
         (registrationPhase cmd dr tmo w0).1,
         (registrationPhase cmd dr tmo w0).2.1⟩) ∧
    (∀ (cmd : ZiGateCommandType) (dr : Bool) (tmo : Option Nat) (w0 : Waitress)
        (m : String) (sid : Nat),
      (registrationPhase cmd dr tmo w0).2.2 = some sid →
      sendCommand cmd dr tmo .ok (.timedOut m) w0 =
        ⟨.rejectedError ("sendCommand error: " ++ m),
         ((registrationPhase cmd dr tmo w0).1).remove sid,
         (registrationPhase cmd dr tmo w0).2.1⟩) ∧
    (∀ (cmd : ZiGateCommandType) (dr : Bool) (tmo : Option Nat) (w0 : Waitress)
        (m : String) (sid : Nat),
      (registrationPhase cmd dr tmo w0).2.2 = some sid →
      ((sendCommand cmd dr tmo .ok (.timedOut m) w0).waitersId.all fun id =>
        (sendCommand cmd dr tmo .ok (.timedOut m) w0).waitress.waiters.any
          fun x => x.id == id) = true) := by
  refine ⟨?_, ?_, ?_⟩
  · intro cmd dr tmo w0 m st
    rfl
  · intro cmd dr tmo w0 m sid hsid
    simp only [sendCommand, hsid]
  · intro cmd dr tmo w0 m sid hsid
    have h2 : sendCommand cmd dr tmo .ok (.timedOut m) w0 =
        ⟨.rejectedError ("sendCommand error: " ++ m),
         ((registrationPhase cmd dr tmo w0).1).remove sid,
         (registrationPhase cmd dr tmo w0).2.1⟩ := by
      simp only [sendCommand, hsid]
    rw [h2]
    exact registrationPhase_response_survive cmd dr tmo w0 sid hsid

/-- Witness for C2 amended at a concrete run (timeout branch): the status
waiter of `sampleCmd` gets ID 1; on its timeout only ID 1 is removed, and
the response waiter (ID 0) is still registered when the command settles. -/
theorem zigate_c2_amended_witness :
    (sendCommand sampleCmd false none .ok (.timedOut "t") emptyWaitress =
      ⟨.rejectedError ("sendCommand error: " ++ "t"),
       ((registrationPhase sampleCmd false none emptyWaitress).1).remove 1,
       (registrationPhase sampleCmd false none emptyWaitress).2.1⟩) ∧
    ((sendCommand sampleCmd false none .ok (.timedOut "t") emptyWaitress).waitersId.all
      fun id =>
        (sendCommand sampleCmd false none .ok (.timedOut "t")
          emptyWaitress).waitress.waiters.any fun x => x.id == id) = true :=
  ⟨zigate_c2_amended.2.1 sampleCmd false none emptyWaitress "t" 1 rfl,
   zigate_c2_amended.2.2 sampleCmd false none emptyWaitress "t" 1 rfl⟩

/-- C3 counterexample: in a run of `sendCommand sampleCmd` the registration
phase (which precedes the transport write) leaves the response waiter
(ID 0) with its timeout timer already started — `waiter.start()` is called
at registration (zigate.ts line 105) — and the run below never reaches the
racing step at all (its write throws, so it ends in the catch block), yet
the timer was started.  This contradicts the claim that response waiters
are registered without starting their timers and that the timers start
only at the racing step. -/
theorem zigate_c3_counterexample :
    (registrationPhase sampleCmd false none emptyWaitress).1.waiters =
      [⟨0, true, 10000, false⟩, ⟨1, true, 10000, true⟩] ∧
    (sendCommand sampleCmd false none (.throws "w") (.timedOut "t")
        emptyWaitress).result = .rejectedError ("sendCommand error: " ++ "w") :=
  ⟨rfl, rfl⟩

/-- C3 amended: response waiters are registered before the write with
their timeout timers started immediately at registration (each
registration is `waitFor` followed by `start`); consequently, after the
registration phase (from an empty registry) every registered expectation —
response waiters and status waiter alike — already has its timer running,
and the later racing step merely races the already-started waiters: when
no status confirmation is required, the command settles as the race over
exactly the IDs collected at registration. -/
theorem zigate_c3_amended :
    (∀ (cmd : ZiGateCommandType) (dr : Bool) (tmo : Option Nat),
      ((registrationPhase cmd dr tmo emptyWaitress).1.waiters.all
        fun x => x.timerStarted) = true) ∧
    (∀ (resp : Option (List ZiGateResponseMatcher)) (dr : Bool) (tmo : Option Nat)
        (w0 : Waitress) (st : StatusSettlement),
      sendCommand ⟨resp, some false⟩ dr tmo .ok st w0 =
        ⟨.race (registrationPhase ⟨resp, some false⟩ dr tmo w0).2.1,
         (registrationPhase ⟨resp, some false⟩ dr tmo w0).1,
         (registrationPhase ⟨resp, some false⟩ dr tmo w0).2.1⟩) := by
  constructor
  · intro cmd dr tmo
    exact registrationPhase_started cmd dr tmo emptyWaitress rfl
  · intro resp dr tmo w0 st
    rfl

/-- If two values differ in whether they are `undefined`, JS strict
equality rejects them. -/
theorem jsStrictEq_of_isUndef_ne {a b : JSValue}
    (h : (a.isUndefined != b.isUndefined) = true) : jsStrictEq a b = false := by
  cases a <;> cases b <;> simp_all [JSValue.isUndefined, jsStrictEq]

/-- A rule whose expected-property path and received-property path both
miss: both sides resolve to `undefined`. -/
def doubleUndefRule : ZiGateResponseMatcherRule :=
  ⟨"missing", equal, none, some "alsoMissing", none⟩

/-- A matcher holding only `doubleUndefRule`, whose request object has no
`alsoMissing` field. -/
def doubleUndefMatcher : WaitressMatcher := ⟨.obj [("code", .num 1)], [doubleUndefRule], none⟩

/-- A decoded object with a `code` field but no `missing` field. -/
def sampleDecoded : JSValue := .obj [("code", .num 2)]

/-- C4 counterexample: for `doubleUndefRule` both the resolved expected
value and the resolved received value are `undefined`, yet the matcher is
satisfied — the `equal` comparator (JS `===`) treats
`undefined === undefined` as `true`, so the rule matches, contradicting
the claim that a rule with an undefined expected or received value never
matches. -/
theorem zigate_c4_counterexample :
    ruleExpectedValue doubleUndefMatcher doubleUndefRule = .undefined ∧
    ruleReceivedValue sampleDecoded doubleUndefRule = .undefined ∧
    waitressValidator sampleDecoded doubleUndefMatcher = true :=
  ⟨rfl, rfl, rfl⟩

/-- C4 amended: for every decoded object and every rule using the `equal`
comparator, if exactly one of the resolved expected value and the resolved
received value is `undefined`, the rule does not match — and the whole
matcher containing it fails — and nothing is thrown past the matcher
boundary (the validator returns `false`); only when both sides resolve to
`undefined` does the equality comparator report a match. -/
theorem zigate_c4_amended (z : JSValue) (m : WaitressMatcher)
    (r : ZiGateResponseMatcherRule) (hmem : r ∈ m.rules) (hmat : r.matcher = equal)
    (hdiff : ((ruleExpectedValue m r).isUndefined != (ruleReceivedValue z r).isUndefined)
      = true) :
    validatorRule z m r = false ∧ waitressValidator z m = false := by
  have hrule : validatorRule z m r = false := by
    unfold validatorRule
    rw [hmat]
    unfold equal
    rw [jsStrictEq_of_isUndef_ne hdiff]
  refine ⟨hrule, ?_⟩
  cases hall : waitressValidator z m with
  | false => rfl
  | true =>
    have := List.all_eq_true.mp hall r hmem
    rw [hrule] at this
    cases this

/-- A rule whose expected-property path misses (resolves to `undefined`)
while the received `code` is present. -/
def oneUndefRule : ZiGateResponseMatcherRule :=
  ⟨"code", equal, none, some "missing", none⟩

/-- A matcher holding only `oneUndefRule` over an empty request object. -/
def oneUndefMatcher : WaitressMatcher := ⟨.obj [], [oneUndefRule], none⟩

/-- Witness for C4 amended at a concrete rule: expected resolves to
`undefined`, received resolves to `2`, and the rule (and matcher) fail. -/
theorem zigate_c4_amended_witness :
    validatorRule sampleDecoded oneUndefMatcher oneUndefRule = false ∧
    waitressValidator sampleDecoded oneUndefMatcher = false :=
  zigate_c4_amended sampleDecoded oneUndefMatcher oneUndefRule
    (List.mem_singleton.mpr rfl) rfl rfl

/-- C5: for every decoded object and matcher, the matcher is satisfied iff
every rule of its rule-set passes — where a rule passes exactly when its
comparator, applied to the resolved expected and received values, returns
`true` without throwing.  A comparator throw (the `.error` case) and a
comparator `false` alike make the rule count as a non-match; neither
escapes the validator. -/
theorem zigate_c5 (z : JSValue) (m : WaitressMatcher) :
    waitressValidator z m = true ↔
      ∀ r ∈ m.rules,
        r.matcher (ruleExpectedValue m r) (ruleReceivedValue z r) = .ok true := by
  unfold waitressValidator
  rw [List.all_eq_true]
  constructor
  · intro h r hr
    have hv := h r hr
    unfold validatorRule at hv
    cases hm : r.matcher (ruleExpectedValue m r) (ruleReceivedValue z r) with
    | ok b =>
      rw [hm] at hv
      cases b with
      | true => rfl
      | false => cases hv
    | error e =>
      rw [hm] at hv
      cases hv
  · intro h r hr
    unfold validatorRule
    rw [h r hr]

/-- A rule matching the sample decoded object: received `code` equals the
literal `2`. -/
def matchingRule : ZiGateResponseMatcherRule :=
  ⟨"code", equal, some (.num 2), none, none⟩

/-- A matcher holding only `matchingRule`. -/
def matchingMatcher : WaitressMatcher := ⟨.obj [], [matchingRule], none⟩

/-- Witness for C5 at a concrete satisfied matcher: the validator passes,
so the single rule's comparator returned `.ok true`. -/
theorem zigate_c5_witness :
    matchingRule.matcher (ruleExpectedValue matchingMatcher matchingRule)
      (ruleReceivedValue sampleDecoded matchingRule) = .ok true :=
  (zigate_c5 sampleDecoded matchingMatcher).mp rfl matchingRule
    (List.mem_singleton.mpr rfl)

/-- C6: for every `sendCommand` run on a command requiring status
confirmation that registered zero response waiters, a success status
resolves the command with the status object itself. -/
theorem zigate_c6 (cmd : ZiGateCommandType) (dr : Bool) (tmo : Option Nat)
    (w0 : Waitress) (s : JSValue)
    (hws : waitStatusRequired cmd = true)
    (hsucc : jsStrictEq ((s.get "payload").get "status") STATUS_E_SL_MSG_STATUS_SUCCESS
      = true)
    (hempty : (registrationPhase cmd dr tmo w0).2.1 = []) :
    (sendCommand cmd dr tmo .ok (.resolved s) w0).result = .resolvedWith s := by
  obtain ⟨sid, hsid⟩ : ∃ sid, (registrationPhase cmd dr tmo w0).2.2 = some sid :=
    ⟨_, registrationPhase_status_some cmd dr tmo w0 hws⟩
  simp [sendCommand, hsid, hsucc, hempty]

/-- Witness for C6 at a concrete run: a command with no declared response
rules, a success status, and resolution with that status object. -/
theorem zigate_c6_witness :
    waitStatusRequired ⟨none, none⟩ = true ∧
    jsStrictEq ((statusOk.get "payload").get "status") STATUS_E_SL_MSG_STATUS_SUCCESS
      = true ∧
    (registrationPhase ⟨none, none⟩ false none emptyWaitress).2.1 = [] ∧
    (sendCommand ⟨none, none⟩ false none .ok (.resolved statusOk) emptyWaitress).result
      = .resolvedWith statusOk :=
  ⟨rfl, rfl, rfl,
   zigate_c6 ⟨none, none⟩ false none emptyWaitress statusOk rfl rfl rfl⟩

/-- C7 counterexample: a transport error event arriving while the driver
is initialized.  `onPortError` only logs: the driver stays initialized and
no `close` event is emitted — contradicting the claim that an error event
forces the transition to Closed and emits the closed event. -/
theorem zigate_c7_counterexample :
    (onPortError "socket reset" ⟨true⟩).state.initialized = true ∧
    (onPortError "socket reset" ⟨true⟩).emitted = [] :=
  ⟨rfl, rfl⟩

/-- C7 amended: a transport-originated close event forces the transition
to Closed (`initialized` becomes false) regardless of the current state
and emits the `close` lifecycle event; a transport-originated error event
is only logged — it changes no driver state and emits nothing. -/
theorem zigate_c7_amended :
    (∀ s : DriverLifecycleState,
      onPortClose s = ⟨⟨false⟩, [.close], ["Port closed"]⟩) ∧
    (∀ (e : String) (s : DriverLifecycleState),
      onPortError e s = ⟨s, [], ["Port error: " ++ e]⟩) :=
  ⟨fun _ => rfl, fun _ _ => rfl⟩

/-- C8: every `close()` run emits the `close` lifecycle event exactly
once; in particular, when releasing the serial transport fails, the event
is emitted first and the close error is propagated afterwards (the trace
ends `..., emitClose, throwError`). -/
theorem zigate_c8 :
    (∀ inp : CloseInput, (close inp).count .emitClose = 1) ∧
    (∀ (hasSock : Bool) (m : String),
      close ⟨true, true, hasSock, .throws m⟩ =
        [.clearQueue, .clearPortWrite, .setUninitialized, .serialFlushClose,
         .emitClose, .throwError m]) := by
  constructor
  · intro inp
    rcases inp with ⟨i, sp, sk, fl⟩
    cases i <;> cases sp <;> cases sk <;> cases fl <;> rfl
  · intro hasSock m
    rfl

/-- The effects of a normal handler return (`[]` for an escaped throw,
which never occurs). -/
def okEffects (r : Except String (List SerialEffect)) : List SerialEffect :=
  match r with
  | .ok l => l
  | .error _ => []

/-- The dispatch switch never emits the `close` lifecycle event. -/
theorem dispatchDecoded_no_close (code : ZiGateMessageCode) (z : DecodedZiGateObject)
    (ds : List SerialEffect) (h : dispatchDecoded code z = .ok ds) :
    (ds.all fun ef => ef != .emit .close) = true := by
  cases code with
  | dataIndication =>
    simp only [dispatchDecoded] at h
    by_cases h0 : z.profileID = 0
    · rw [if_pos h0] at h
      by_cases h1 : z.clusterID = 0x0013
      · rw [if_pos h1] at h
        cases ha : z.announceRead with
        | error e => rw [ha] at h; cases h
        | ok na => rw [ha] at h; injection h with h'; subst h'; rfl
      · rw [if_neg h1] at h; injection h with h'; subst h'; rfl
    · rw [if_neg h0] at h
      by_cases h2 : z.profileID = 0x0104
      · rw [if_pos h2] at h; injection h with h'; subst h'; rfl
      · rw [if_neg h2] at h; injection h with h'; subst h'; rfl
  | leaveIndication =>
    simp only [dispatchDecoded] at h; injection h with h'; subst h'; rfl
  | deviceAnnounce =>
    simp only [dispatchDecoded] at h; injection h with h'; subst h'; rfl
  | status =>
    simp only [dispatchDecoded] at h; injection h with h'; subst h'; rfl
  | other c =>
    simp only [dispatchDecoded] at h; injection h with h'; subst h'; rfl

/-- C9: the inbound frame handler contains every per-frame failure.  It
never throws (`onSerialData` always returns normally); a frame-parsing
failure produces only an error log (no event, no registry interaction);
a decode failure likewise produces only logs; and no run of the handler
ever emits the `close` event, so it never terminates the session — and in
the failure runs it performs no registry settlement or event emission, so
it cannot fail a command. -/
theorem zigate_c9 :
    (∀ inp : SerialInput, (onSerialData inp).isOk = true) ∧
    (∀ (e : String) (d : Except String DecodedZiGateObject),
      onSerialData ⟨.error e, d⟩ = .ok [.logError ("Error while parsing Frame " ++ e)]) ∧
    (∀ (c : ZiGateMessageCode) (e : String),
      onSerialData ⟨.ok ⟨.ok c⟩, .error e⟩ =
        .ok [.logDebug "parsed frame", .logError ("Parsing error: " ++ e)]) ∧
    (∀ inp : SerialInput,
      ((okEffects (onSerialData inp)).all fun ef => ef != .emit .close) = true) := by
  refine ⟨?_, ?_, ?_, ?_⟩
  · intro ⟨fr, dec⟩
    cases fr with
    | error e => rfl
    | ok f =>
      rcases f with ⟨mc⟩
      cases mc with
      | error e => rfl
      | ok c =>
        cases dec with
        | error e => rfl
        | ok z =>
          cases h : dispatchDecoded c z <;>
            simp [onSerialData, h, Except.isOk, Except.toBool]
  · intro e d
    rfl
  · intro c e
    rfl
  · intro ⟨fr, dec⟩
    cases fr with
    | error e => rfl
    | ok f =>
      rcases f with ⟨mc⟩
      cases mc with
      | error e => rfl
      | ok c =>
        cases dec with
        | error e => rfl
        | ok z =>
          cases h : dispatchDecoded c z with
          | error e =>
            have hrun : onSerialData ⟨.ok ⟨.ok c⟩, .ok z⟩ =
                .ok [.logDebug "parsed frame", .logDebug "payload", .waitressResolve,
                     .logError ("Parsing error: " ++ e)] := by
              simp [onSerialData, h]
            rw [hrun]
            rfl
          | ok ds =>
            have hds := dispatchDecoded_no_close c z ds h
            have hrun : onSerialData ⟨.ok ⟨.ok c⟩, .ok z⟩ =
                .ok ([.logDebug "parsed frame", .logDebug "payload", .waitressResolve]
                      ++ ds) := by
              simp [onSerialData, h]
            rw [hrun]
            simp only [okEffects]
            rw [List.all_append, hds]
            rfl

/-- C10: a `sendCommand` run with `disableResponse = true` on a command
whose `waitStatus` is the literal `false` registers no expectation at all,
and after a successful write it returns `Promise.race` over an empty
waiter list — a promise that never settles. -/
theorem zigate_c10 (resp : Option (List ZiGateResponseMatcher)) (tmo : Option Nat)
    (st : StatusSettlement) (w0 : Waitress) :
    (sendCommand ⟨resp, some false⟩ true tmo .ok st w0).waitress = w0 ∧
    (sendCommand ⟨resp, some false⟩ true tmo .ok st w0).waitersId = [] ∧
    (sendCommand ⟨resp, some false⟩ true tmo .ok st w0).result = .race [] ∧
    (sendCommand ⟨resp, some false⟩ true tmo .ok st w0).result.settles = false :=
  ⟨rfl, rfl, rfl, rfl⟩

end ZiGateDriver
